import Mathlib

/-!
Shallow embedding of `lambda_function.py`, an AWS Lambda that polls CloudWatch
metrics for a fleet of EC2 instances, renders an Excel report (summary section,
alert tables, per-instance detail blocks) and uploads it to S3.

The CloudWatch / EC2 / S3 backends are modelled as explicit environment records.
Python floats are modelled as rationals (arithmetic on metric readings is exact
decimals at the precision the code uses), fallible API calls return `Except`,
and the thread-pool fan-out is modelled as a map over the submitted instance
ids (each worker owns one instance's data; completion order does not affect any
property proved here).
-/

namespace Status

/-- CONFIG constant `S3_BUCKET` from the source. -/
def S3_BUCKET : String := "audit-log-sm20-bucket"

/-- CONFIG constant `S3_KEY_PREFIX` from the source (renamed here). -/
def S3_KEY_STEM : String := "status/Sapphire-PRD"

/-- CONFIG constant `REGION` from the source. -/
def REGION : String := "ap-south-1"

/-- CONFIG constant `ACCOUNT_NAME` from the source. -/
def ACCOUNT_NAME : String := "Sapphire-PRD"

/-- Module constant `ALLOWED_DISK_PATHS = ['/', '/usr', '/hana']`.  Note that
the source defines this constant but never reads it; `get_linux_disk_dimensions`
hard-codes its own (prefix-based) path test. -/
def ALLOWED_DISK_PATHS : List String := ["/", "/usr", "/hana"]

/-- A CloudWatch metric dimension: `{'Name': ..., 'Value': ...}`. -/
structure Dim where
  name : String
  value : String
deriving DecidableEq, Repr

/-- The per-instance attributes collected by `get_all_instances` /
`get_running_instances`: display name, platform family string, size class and
lifecycle state. -/
structure InstanceInfo where
  name : String
  os_type : String
  instance_type : String
  state : String
deriving DecidableEq, Repr

/-- The instance map built by `get_all_instances`: instance id keyed records
(a Python dict, modelled as an association list with unique keys where that
matters). -/
abbrev Fleet := List (String × InstanceInfo)

/-- `get_running_instances`: `describe_instances` with the server-side filter
`instance-state-name = running`, modelled as filtering the account's fleet. -/
def runningInstances (fleet : Fleet) : Fleet :=
  fleet.filter (fun p => p.2.state == "running")

/-- The instance ids submitted to the `ThreadPoolExecutor` in `lambda_handler`
(line 779 iterates the keys of the running-instance dict). -/
def submittedIds (fleet : Fleet) : List String :=
  (runningInstances fleet).map Prod.fst

/-- Python `dict.get(iid, {})` on the instance map. -/
def lookupInfo (fleet : Fleet) (iid : String) : Option InstanceInfo :=
  (fleet.find? (fun p => p.1 == iid)).map Prod.snd

/-- Python substring test `pat in s`. -/
def strContains (s pat : String) : Bool :=
  decide (pat.data <:+: s.data)

/-- Python `s.startswith(pre)`. -/
def strStartsWith (s pre : String) : Bool :=
  pre.data.isPrefixOf s.data

/-- Round a rational to the nearest integer, ties to even: the rounding used by
Python's `round` builtin and by `format` on the (nonnegative) readings handled
here. -/
def roundHalfEven (q : ℚ) : ℤ :=
  let f := ⌊q⌋
  let r := q - (f : ℚ)
  if r < 1/2 then f
  else if 1/2 < r then f + 1
  else if f % 2 = 0 then f else f + 1

/-- Python `round(x, 1)`. -/
def pyRound1 (q : ℚ) : ℚ :=
  ((roundHalfEven (10 * q) : ℤ) : ℚ) / 10

/-- Python `f'{x:.1f}'` for the nonnegative readings the code formats. -/
def fmt1 (q : ℚ) : String :=
  let n := roundHalfEven (10 * q)
  toString (n / 10) ++ "." ++ toString ((n % 10).natAbs)

/-- Python `f'{x:.0f}'` for the nonnegative readings the code formats. -/
def fmt0 (q : ℚ) : String :=
  toString (roundHalfEven q)

theorem roundHalfEven_intCast (n : ℤ) : roundHalfEven (n : ℚ) = n := by
  simp [roundHalfEven]

theorem pyRound1_eq_self (q : ℚ) (n : ℤ) (h : (10 : ℚ) * q = (n : ℚ)) :
    pyRound1 q = q := by
  have h10 : q = (n : ℚ) / 10 := by
    field_simp at h ⊢
    linarith
  rw [pyRound1, h, roundHalfEven_intCast, h10]

theorem ten_mul_pyRound1 (q : ℚ) :
    (10 : ℚ) * pyRound1 q = ((roundHalfEven (10 * q) : ℤ) : ℚ) := by
  rw [pyRound1]
  ring

/-- The free-percent cell `round(100 - used, 1)` is exactly `100 - used` when
`used` already carries one decimal, so used + free is exactly 100. -/
theorem pyRound1_complement (v : ℚ) :
    pyRound1 v + pyRound1 (100 - pyRound1 v) = 100 := by
  have h1 : (10 : ℚ) * (100 - pyRound1 v) = ((1000 - roundHalfEven (10 * v) : ℤ) : ℚ) := by
    have := ten_mul_pyRound1 v
    push_cast
    linarith
  rw [pyRound1_eq_self (100 - pyRound1 v) _ h1]
  ring

/-- A Python exception raised by a boto3 call: either a `ClientError` (which
several functions catch locally) or any other exception. -/
inductive PyErr where
  | clientError (m : String)
  | other (m : String)
deriving DecidableEq, Repr

/-- Python `str(e)`. -/
def PyErr.msg : PyErr → String
  | .clientError m => m
  | .other m => m

/-- The CloudWatch backend, as seen by this program: `list_metrics` (given a
namespace, a metric name and the instance id dimension filter, it yields the
dimension sets of the matching metrics) and `get_metric_data` (given metric
name, namespace and dimensions, it yields the most recent value, `none` when
the query returns no datapoints).  Either call may raise. -/
structure CWEnv where
  listMetricsRes : String → String → String → Except PyErr (List (List Dim))
  metricValueRes : String → String → List Dim → Except PyErr (Option ℚ)

/-- One monitoring API request issued by the collector, recorded in program
order: a `list_metrics` page request or a `get_metric_data` request. -/
inductive CWEvent where
  | listReq (ns metricName : String)
  | valueReq (metricName ns : String) (dims : List Dim)
deriving DecidableEq, Repr

/-- The metric name an event asks about. -/
def eventMetricName : CWEvent → String
  | .listReq _ n => n
  | .valueReq n _ _ => n

/-- `get_current_metric_value`: one `get_metric_data` request; a `ClientError`
is caught and turned into `None`, any other exception propagates. -/
def getCurrentMetricValue (env : CWEnv) (metricName ns : String) (dims : List Dim) :
    List CWEvent × Except PyErr (Option ℚ) :=
  ([.valueReq metricName ns dims],
   match env.metricValueRes metricName ns dims with
   | .ok v => .ok v
   | .error (.clientError _) => .ok none
   | .error e => .error e)

/-- The `for metric in page['Metrics']` loops of `get_memory_metric`: query
each candidate dimension set in turn and return the first value present. -/
def tryEachValue (env : CWEnv) (metricName ns : String) :
    List (List Dim) → List CWEvent × Except PyErr (Option ℚ)
  | [] => ([], .ok none)
  | dims :: rest =>
    let (evs, r) := getCurrentMetricValue env metricName ns dims
    match r with
    | .error e => (evs, .error e)
    | .ok (some v) => (evs, .ok (some v))
    | .ok none =>
      let (evs2, r2) := tryEachValue env metricName ns rest
      (evs ++ evs2, r2)

/-- Last `objectname` dimension of a metric (the Python loops overwrite on each
match, so the last one wins). -/
def objectnameOf (dims : List Dim) : Option String :=
  dims.foldl (fun acc d => if d.name == "objectname" then some d.value else acc) none

/-- Result of `get_memory_metric`: `used_percent` is a number or the sentinel
`'NA'` (modelled as `none`; the initial `{}` of `get_instance_metrics` is also
modelled as `none` since the report reads it with `.get`), plus the optional
`note` string. -/
structure MemoryResult where
  used_percent : Option ℚ
  note : Option String
deriving DecidableEq, Repr

/-- The empty dict `{}` that `get_instance_metrics` initialises `'memory'` to. -/
def emptyMem : MemoryResult := ⟨none, none⟩

/-- Second block of `get_memory_metric`: list `Memory % Committed Bytes In Use`
metrics, query the ones whose `objectname` is `Memory`; `ClientError` is caught
(falling through), other exceptions propagate. -/
def winMemCommitted (env : CWEnv) (iid : String) :
    List CWEvent × Except PyErr (Option ℚ) :=
  let ev : CWEvent := .listReq "CWAgent" "Memory % Committed Bytes In Use"
  match env.listMetricsRes "CWAgent" "Memory % Committed Bytes In Use" iid with
  | .error (.clientError _) => ([ev], .ok none)
  | .error e => ([ev], .error e)
  | .ok metrics =>
    let (evs, r) := tryEachValue env "Memory % Committed Bytes In Use" "CWAgent"
      (metrics.filter (fun dims => objectnameOf dims == some "Memory"))
    (ev :: evs, r)

/-- Third block of `get_memory_metric`: list `Memory Available Mbytes` metrics
and query them in turn; `ClientError` is caught, other exceptions propagate. -/
def winMemAvailable (env : CWEnv) (iid : String) :
    List CWEvent × Except PyErr (Option ℚ) :=
  let ev : CWEvent := .listReq "CWAgent" "Memory Available Mbytes"
  match env.listMetricsRes "CWAgent" "Memory Available Mbytes" iid with
  | .error (.clientError _) => ([ev], .ok none)
  | .error e => ([ev], .error e)
  | .ok metrics =>
    let (evs, r) := tryEachValue env "Memory Available Mbytes" "CWAgent" metrics
    (ev :: evs, r)

/-- First block of `get_memory_metric`: list the Linux metric
`mem_used_percent` and query the candidates in turn; `ClientError` is caught
(falling through to the Windows blocks), other exceptions propagate. -/
def linuxMemBlock (env : CWEnv) (iid : String) :
    List CWEvent × Except PyErr (Option ℚ) :=
  let evL : CWEvent := .listReq "CWAgent" "mem_used_percent"
  match env.listMetricsRes "CWAgent" "mem_used_percent" iid with
  | .error (.clientError _) => ([evL], .ok none)
  | .error e => ([evL], .error e)
  | .ok metrics =>
    let (evs, r) := tryEachValue env "mem_used_percent" "CWAgent" metrics
    (evL :: evs, r)

/-- `get_memory_metric`: try the Linux metric `mem_used_percent` first, then
the two Windows metrics, returning `'NA'` when none produced a value. -/
def getMemoryMetric (env : CWEnv) (iid : String) :
    List CWEvent × Except PyErr MemoryResult :=
  let (ev1, r1) := linuxMemBlock env iid
  match r1 with
  | .error e => (ev1, .error e)
  | .ok (some v) => (ev1, .ok ⟨some v, none⟩)
  | .ok none =>
    let (ev2, r2) := winMemCommitted env iid
    match r2 with
    | .error e => (ev1 ++ ev2, .error e)
    | .ok (some v) => (ev1 ++ ev2, .ok ⟨some v, none⟩)
    | .ok none =>
      let (ev3, r3) := winMemAvailable env iid
      match r3 with
      | .error e => (ev1 ++ ev2 ++ ev3, .error e)
      | .ok (some v) =>
        (ev1 ++ ev2 ++ ev3, .ok ⟨none, some ("Available: " ++ fmt0 v ++ " MB")⟩)
      | .ok none => (ev1 ++ ev2 ++ ev3, .ok ⟨none, none⟩)

/-- First dimension named `path`, as Python's `next(..., None)`. -/
def extractPath (dims : List Dim) : Option String :=
  (dims.find? (fun d => d.name == "path")).map Dim.value

/-- The path test of `get_linux_disk_dimensions`: the path dimension exists, is
truthy, and is `/` or starts with `/usr` or `/hana`. -/
def linuxDiskPred (dims : List Dim) : Bool :=
  match extractPath dims with
  | some p => p ≠ "" && (p == "/" || strStartsWith p "/usr" || strStartsWith p "/hana")
  | none => false

/-- `get_linux_disk_dimensions`: list `disk_used_percent` metrics for the
instance and keep the dimension sets passing the path test; `ClientError` is
caught (returning what was collected, modelled as the empty list), other
exceptions propagate. -/
def getLinuxDiskDimensions (env : CWEnv) (iid : String) :
    List CWEvent × Except PyErr (List (List Dim)) :=
  let ev : CWEvent := .listReq "CWAgent" "disk_used_percent"
  match env.listMetricsRes "CWAgent" "disk_used_percent" iid with
  | .error (.clientError _) => ([ev], .ok [])
  | .error e => ([ev], .error e)
  | .ok metrics => ([ev], .ok (metrics.filter linuxDiskPred))

/-- A rendered disk entry `{'path': ..., 'used_percent': ...}` (`none` models
the `'NA'` sentinel). -/
structure DiskEntry where
  path : String
  used_percent : Option ℚ
deriving DecidableEq, Repr

/-- The drive-letter check of `get_windows_disks_all`: non-empty, contains a
colon and is not `_Total`. -/
def validDrive (v : String) : Bool :=
  v ≠ "" && v.data.contains ':' && v != "_Total"

/-- Last valid value among the `instance` dimensions (invalid values do not
overwrite an earlier valid one, per the nested `if` in the Python loop). -/
def driveLetterOf (dims : List Dim) : Option String :=
  dims.foldl
    (fun acc d => if d.name == "instance" && validDrive d.value then some d.value else acc)
    none

/-- The metric loop of `get_windows_disks_all`: for each unprocessed drive
letter whose `objectname` is `LogicalDisk`, fetch the free-space percentage and
record `100 - free` (or `'NA'`). -/
def winDiskLoop (env : CWEnv) :
    List String → List (List Dim) → List CWEvent × Except PyErr (List DiskEntry)
  | _, [] => ([], .ok [])
  | processed, dims :: rest =>
    match driveLetterOf dims with
    | some drive =>
      if processed.contains drive then winDiskLoop env processed rest
      else if objectnameOf dims == some "LogicalDisk" then
        let (ev, r) := getCurrentMetricValue env "LogicalDisk % Free Space" "CWAgent" dims
        match r with
        | .error e => (ev, .error e)
        | .ok v =>
          let entry : DiskEntry :=
            match v with
            | some freePct => ⟨drive, some (100 - freePct)⟩
            | none => ⟨drive, none⟩
          let (evs, r2) := winDiskLoop env (drive :: processed) rest
          (ev ++ evs,
           match r2 with
           | .ok ds => .ok (entry :: ds)
           | .error e => .error e)
      else winDiskLoop env processed rest
    | none => winDiskLoop env processed rest

/-- `get_windows_disks_all`: list `LogicalDisk % Free Space` metrics, collect
one entry per drive letter, and sort the result by drive letter; `ClientError`
is caught (keeping what was collected, modelled as the empty list when the
listing itself fails), other exceptions propagate. -/
def getWindowsDisksAll (env : CWEnv) (iid : String) :
    List CWEvent × Except PyErr (List DiskEntry) :=
  let ev : CWEvent := .listReq "CWAgent" "LogicalDisk % Free Space"
  match env.listMetricsRes "CWAgent" "LogicalDisk % Free Space" iid with
  | .error (.clientError _) => ([ev], .ok [])
  | .error e => ([ev], .error e)
  | .ok metrics =>
    let (evs, r) := winDiskLoop env [] metrics
    (ev :: evs,
     match r with
     | .ok ds => .ok (ds.mergeSort (fun a b => a.path ≤ b.path))
     | .error e => .error e)

/-- The record `get_instance_metrics` builds: always carries the instance id;
`error` is present exactly when the collection body raised. -/
structure Metrics where
  instance_id : String
  cpu : Option ℚ
  memory : MemoryResult
  disks : List DiskEntry
  error : Option String
deriving DecidableEq, Repr

/-- The record produced when the collection body raises: the fields assigned
before the exception are kept and `error` is set. -/
def mkErrMetrics (iid : String) (cpu : Option ℚ) (mem : MemoryResult)
    (disks : List DiskEntry) (e : PyErr) : Metrics :=
  ⟨iid, cpu, mem, disks, some ("Failed to get metrics: " ++ e.msg)⟩

/-- The Windows probe of `get_instance_metrics` (lines 312-324): list
`LogicalDisk % Free Space` metrics; the instance is Windows when any page is
nonempty; the bare `except: pass` leaves the flag `False` on any exception. -/
def probeWindows (env : CWEnv) (iid : String) : Bool :=
  match env.listMetricsRes "CWAgent" "LogicalDisk % Free Space" iid with
  | .ok l => !l.isEmpty
  | .error _ => false

/-- The `list_metrics` request the probe issues. -/
def probeEvent : CWEvent := .listReq "CWAgent" "LogicalDisk % Free Space"

/-- The Linux disk loop of `get_instance_metrics` (lines 336-339): disks append
one by one, so on an exception the entries collected so far are kept. -/
def linuxDiskLoop (env : CWEnv) :
    List (List Dim) → List CWEvent × List DiskEntry × Option PyErr
  | [] => ([], [], none)
  | dims :: rest =>
    let path := (extractPath dims).getD "N/A"
    let (ev, r) := getCurrentMetricValue env "disk_used_percent" "CWAgent" dims
    match r with
    | .error e => (ev, [], some e)
    | .ok v =>
      let (evs, entries, errTail) := linuxDiskLoop env rest
      (ev ++ evs, ⟨path, v⟩ :: entries, errTail)

/-- `get_instance_metrics`: CPU, then memory, then the Windows probe, then the
platform's disk metrics; every exception in the body is caught and recorded
under `error`, and the record (with the fields assigned so far) is returned.
The first component is the ordered list of monitoring requests issued. -/
def getInstanceMetrics (env : CWEnv) (iid : String) : List CWEvent × Metrics :=
  let (evCpu, rCpu) :=
    getCurrentMetricValue env "CPUUtilization" "AWS/EC2" [⟨"InstanceId", iid⟩]
  match rCpu with
  | .error e => (evCpu, mkErrMetrics iid none emptyMem [] e)
  | .ok cpu =>
    let (evMem, rMem) := getMemoryMetric env iid
    match rMem with
    | .error e => (evCpu ++ evMem, mkErrMetrics iid cpu emptyMem [] e)
    | .ok mem =>
      if probeWindows env iid then
        let (evW, rW) := getWindowsDisksAll env iid
        match rW with
        | .error e => (evCpu ++ evMem ++ probeEvent :: evW, mkErrMetrics iid cpu mem [] e)
        | .ok disks => (evCpu ++ evMem ++ probeEvent :: evW, ⟨iid, cpu, mem, disks, none⟩)
      else
        let (evL, rL) := getLinuxDiskDimensions env iid
        match rL with
        | .error e => (evCpu ++ evMem ++ probeEvent :: evL, mkErrMetrics iid cpu mem [] e)
        | .ok dimsList =>
          let (evD, entries, errTail) := linuxDiskLoop env dimsList
          match errTail with
          | some e =>
            (evCpu ++ evMem ++ probeEvent :: (evL ++ evD), mkErrMetrics iid cpu mem entries e)
          | none =>
            (evCpu ++ evMem ++ probeEvent :: (evL ++ evD), ⟨iid, cpu, mem, entries, none⟩)

/-- A CloudWatch backend with no metrics and no data, used for concrete runs. -/
def trivEnv : CWEnv :=
  ⟨fun _ _ _ => .ok [], fun _ _ _ => .ok none⟩

/-- The six counters of the instance-type summary table (lines 416-442). -/
structure PlatformCounts where
  windowsRunning : ℕ
  windowsStopped : ℕ
  linuxRunning : ℕ
  linuxStopped : ℕ
  suseRunning : ℕ
  suseStopped : ℕ
deriving DecidableEq, Repr

/-- One step of the counting loop: `"Windows" in os_type` wins, then
`"SUSE" in os_type`, else Linux/UNIX; `state == "running"` vs anything else. -/
def countStep (c : PlatformCounts) (p : String × InstanceInfo) : PlatformCounts :=
  if strContains p.2.os_type "Windows" then
    if p.2.state == "running" then { c with windowsRunning := c.windowsRunning + 1 }
    else { c with windowsStopped := c.windowsStopped + 1 }
  else if strContains p.2.os_type "SUSE" then
    if p.2.state == "running" then { c with suseRunning := c.suseRunning + 1 }
    else { c with suseStopped := c.suseStopped + 1 }
  else
    if p.2.state == "running" then { c with linuxRunning := c.linuxRunning + 1 }
    else { c with linuxStopped := c.linuxStopped + 1 }

/-- The counting loop over `all_instances.items()`. -/
def countInstances (fleet : Fleet) : PlatformCounts :=
  fleet.foldl countStep ⟨0, 0, 0, 0, 0, 0⟩

/-- The cell values of the instance-type summary table: each row carries
(Running, Stopped, Total) as written into columns 2-4 (lines 444-489). -/
structure SummaryTable where
  windowsRow : ℕ × ℕ × ℕ
  linuxRow : ℕ × ℕ × ℕ
  suseRow : ℕ × ℕ × ℕ
  totalRow : ℕ × ℕ × ℕ
deriving DecidableEq, Repr

/-- Build the summary table exactly as the cells are assigned in the source. -/
def buildSummaryTable (fleet : Fleet) : SummaryTable :=
  { windowsRow := ((countInstances fleet).windowsRunning, (countInstances fleet).windowsStopped,
      (countInstances fleet).windowsRunning + (countInstances fleet).windowsStopped)
    linuxRow := ((countInstances fleet).linuxRunning, (countInstances fleet).linuxStopped,
      (countInstances fleet).linuxRunning + (countInstances fleet).linuxStopped)
    suseRow := ((countInstances fleet).suseRunning, (countInstances fleet).suseStopped,
      (countInstances fleet).suseRunning + (countInstances fleet).suseStopped)
    totalRow :=
      ((countInstances fleet).windowsRunning + (countInstances fleet).linuxRunning +
         (countInstances fleet).suseRunning,
       (countInstances fleet).windowsStopped + (countInstances fleet).linuxStopped +
         (countInstances fleet).suseStopped,
       ((countInstances fleet).windowsRunning + (countInstances fleet).linuxRunning +
          (countInstances fleet).suseRunning) +
         ((countInstances fleet).windowsStopped + (countInstances fleet).linuxStopped +
            (countInstances fleet).suseStopped)) }

/-- One alert row of the Warning / Action Required tables. -/
structure Alert where
  name : String
  metric : String
  utilization : String
deriving DecidableEq, Repr

/-- Instance display name used in alerts:
`all_instances.get(iid, {}).get('name', iid)`. -/
def alertName (allInst : Fleet) (iid : String) : String :=
  match lookupInfo allInst iid with
  | some info => info.name
  | none => iid

/-- The alert classification for one metrics record of the summary-section loop
(lines 497-542): for each numeric reading, `>= 50` raises an alert, `> 60` a
red ("Action Required") one, otherwise a yellow ("Warning") one.  Returns
(yellow, red) in append order. -/
def recordAlerts (allInst : Fleet) (d : Metrics) : List Alert × List Alert :=
  let nm := alertName allInst d.instance_id
  let cpuPair : List Alert × List Alert :=
    match d.cpu with
    | some c =>
      if 50 ≤ c then
        if 60 < c then ([], [⟨nm, "CPU", fmt1 c ++ "%"⟩])
        else ([⟨nm, "CPU", fmt1 c ++ "%"⟩], [])
      else ([], [])
    | none => ([], [])
  let memPair : List Alert × List Alert :=
    match d.memory.used_percent with
    | some m =>
      if 50 ≤ m then
        if 60 < m then ([], [⟨nm, "Memory", fmt1 m ++ "%"⟩])
        else ([⟨nm, "Memory", fmt1 m ++ "%"⟩], [])
      else ([], [])
    | none => ([], [])
  let diskPair : List Alert × List Alert :=
    d.disks.foldl
      (fun acc dk =>
        match dk.used_percent with
        | some v =>
          if 50 ≤ v then
            if 60 < v then (acc.1, acc.2 ++ [⟨nm, "Disk (" ++ dk.path ++ ")", fmt1 v ++ "%"⟩])
            else (acc.1 ++ [⟨nm, "Disk (" ++ dk.path ++ ")", fmt1 v ++ "%"⟩], acc.2)
          else acc
        | none => acc)
      ([], [])
  (cpuPair.1 ++ memPair.1 ++ diskPair.1, cpuPair.2 ++ memPair.2 ++ diskPair.2)

/-- The alert-collection loop over `metrics_data`: records carrying an `error`
key are skipped. -/
def collectAlerts (allInst : Fleet) (md : List Metrics) : List Alert × List Alert :=
  md.foldl
    (fun acc d =>
      if d.error = none then
        (acc.1 ++ (recordAlerts allInst d).1, acc.2 ++ (recordAlerts allInst d).2)
      else acc)
    ([], [])

/-- The content of the summary section (`create_summary_section`): account
header, instance-type table, then the Warning and Action Required tables (each
emitted only when its alert list is nonempty; the lists here are the rows). -/
structure SummaryOut where
  accountName : String
  accountNumber : String
  region : String
  table : SummaryTable
  yellowAlerts : List Alert
  redAlerts : List Alert
deriving DecidableEq, Repr

/-- `create_summary_section`, as the data it writes into the sheet. -/
def createSummarySection (allInst : Fleet) (md : List Metrics)
    (accountNumber : String) : SummaryOut :=
  ⟨ACCOUNT_NAME, accountNumber, REGION, buildSummaryTable allInst,
   (collectAlerts allInst md).1, (collectAlerts allInst md).2⟩

/-- A Used % / Free % cell of a detail table: a number or the string `"NA"`. -/
inductive Cell where
  | num (q : ℚ)
  | na
deriving DecidableEq, Repr

/-- One row of a per-instance metric table: Metric Type, the Path column (also
used for the memory note and the no-disks message), Used % and Free %. -/
structure MetricRow where
  metricType : String
  pathCol : Option String
  used : Cell
  free : Cell
deriving DecidableEq, Repr

/-- Used/Free cell pair for a numeric reading: `used = round(v, 1)` and
`free = round(100 - used, 1)` (lines 681-684 and the analogous rows). -/
def usedFreeCells : Option ℚ → Cell × Cell
  | some v => (.num (pyRound1 v), .num (pyRound1 (100 - pyRound1 v)))
  | none => (.na, .na)

/-- The rows of one instance's metric table (lines 677-733): the CPU row, the
Memory row (with the note in the Path column when present), then one row per
disk, or a `No disk metrics available` row when there are none. -/
def metricRows (d : Metrics) : List MetricRow :=
  let cpuCells := usedFreeCells d.cpu
  let cpuRow : MetricRow := ⟨"CPU", none, cpuCells.1, cpuCells.2⟩
  let memRow : MetricRow :=
    match d.memory.used_percent with
    | some m => ⟨"Memory", none, .num (pyRound1 m), .num (pyRound1 (100 - pyRound1 m))⟩
    | none => ⟨"Memory", d.memory.note, .na, .na⟩
  let diskRows : List MetricRow :=
    match d.disks with
    | [] => [⟨"Disk", some "No disk metrics available", .na, .na⟩]
    | _ :: _ => d.disks.map (fun dk =>
        match dk.used_percent with
        | some v => ⟨"Disk", some dk.path, .num (pyRound1 v), .num (pyRound1 (100 - pyRound1 v))⟩
        | none => ⟨"Disk", some dk.path, .na, .na⟩)
  cpuRow :: memRow :: diskRows

/-- What a detail block shows below the header lines: a metric table, or a
single message cell. -/
inductive DetailBody where
  | table (rows : List MetricRow)
  | message (s : String)
deriving DecidableEq, Repr

/-- The body of one instance's detail block (lines 666-744): running instances
get their metric table when a clean metrics record exists, the error text
otherwise; non-running instances get the stopped message and no lookup. -/
def detailBody (md : List Metrics) (iid : String) (info : InstanceInfo) : DetailBody :=
  if info.state == "running" then
    match md.find? (fun d => d.instance_id == iid) with
    | some d =>
      match d.error with
      | none => .table (metricRows d)
      | some e => .message ("Metrics: Not available (" ++ e ++ ")")
    | none => .message "Metrics: Not available (No metrics data)"
  else .message "Metrics: Not available (instance stopped)"

/-- One instance's detail block: the header lines (identity, platform, size,
specs from `get_instance_type_specs`, state) and the body. -/
structure DetailEntry where
  instanceId : String
  iname : String
  osType : String
  instanceType : String
  vcpu : String
  memoryGb : String
  state : String
  body : DetailBody
deriving DecidableEq, Repr

/-- The whole report document (`create_excel_report`): sheet title, summary
section, then one detail block per instance of the map, in map order.  The
`get_instance_type_specs` lookup is an oracle argument (it catches its own
`ClientError` and returns `Unknown`s, so it is total). -/
structure Report where
  sheetTitle : String
  summary : SummaryOut
  details : List DetailEntry
deriving DecidableEq, Repr

/-- `create_excel_report` (the second argument `instance_meta` is accepted and
never used, as in the source). -/
def createExcelReport (md : List Metrics) (instanceMeta : Fleet)
    (allInst : Fleet) (accountNumber : String)
    (specs : String → String × String) : Report :=
  let _ := instanceMeta
  ⟨"Sapphire-PRD", createSummarySection allInst md accountNumber,
   allInst.map (fun p =>
     ⟨p.1, p.2.name, p.2.os_type, p.2.instance_type,
      (specs p.2.instance_type).1, (specs p.2.instance_type).2,
      p.2.state, detailBody md p.1 p.2⟩)⟩

/-- The environment of one `lambda_handler` invocation: the account number (its
lookup catches `ClientError`, so it is total), the `describe_instances` result
(both describe calls are modelled from the same fleet), the CloudWatch backend,
the size-class oracle, the S3 upload outcome, and the timestamp. -/
structure RunEnv where
  accountNumber : String
  fleet : Except String Fleet
  cw : CWEnv
  specs : String → String × String
  putObject : Report → Except String Unit
  timestamp : String

/-- The body of `lambda_handler`'s `try` block: list instances, fetch metrics
for the running ones (one worker per instance; since `getInstanceMetrics` is
total the per-future `except` branch contributes nothing), build the report,
upload it, and return the success message. -/
def runBody (env : RunEnv) : Except String String :=
  match env.fleet with
  | .error e => .error e
  | .ok allInst =>
    let running := runningInstances allInst
    let md := running.map (fun p => (getInstanceMetrics env.cw p.1).2)
    let report := createExcelReport md running allInst env.accountNumber env.specs
    let key := S3_KEY_STEM ++ "_" ++ env.timestamp ++ ".xlsx"
    match env.putObject report with
    | .error e => .error e
    | .ok _ => .ok ("Report uploaded to s3://" ++ S3_BUCKET ++ "/" ++ key)

/-- The status/message pair the handler returns. -/
structure HandlerResult where
  statusCode : ℕ
  body : String
deriving DecidableEq, Repr

/-- `lambda_handler`: the whole body runs under one `try`; any exception is
caught and reported as a 500 with the exception text, success returns 200 with
the upload location. -/
def lambdaHandler (env : RunEnv) : HandlerResult :=
  match runBody env with
  | .ok message => ⟨200, message⟩
  | .error e => ⟨500, "Error: " ++ e⟩

/-- A clean metrics record carrying a single CPU reading. -/
def mkCpuOnly (iid : String) (v : ℚ) : Metrics := ⟨iid, some v, emptyMem, [], none⟩

/-- A clean metrics record carrying a single memory reading. -/
def mkMemOnly (iid : String) (v : ℚ) : Metrics := ⟨iid, none, ⟨some v, none⟩, [], none⟩

/-- A clean metrics record carrying a single disk reading. -/
def mkDiskOnly (iid p : String) (v : ℚ) : Metrics := ⟨iid, none, emptyMem, [⟨p, some v⟩], none⟩

/-- The record `lambda_handler` appends when a worker's future raises:
`{'instance_id': iid, 'error': msg}` (absent keys read as empty/none). -/
def errRecord (iid msg : String) : Metrics := ⟨iid, none, emptyMem, [], some msg⟩

/-- Replace the failing instance's record by the handler's error record,
leaving every other record untouched. -/
def failInstance (i msg : String) (d : Metrics) : Metrics :=
  if d.instance_id == i then errRecord i msg else d

/-- Requests about either platform's disk metrics. -/
def isDiskMetricEvent (e : CWEvent) : Bool :=
  eventMetricName e == "disk_used_percent" || eventMetricName e == "LogicalDisk % Free Space"

/-- The CloudWatch agent metric names that exist only for one platform family
(`CPUUtilization` is the only platform-independent one the code asks for). -/
def platformSpecificMetricNames : List String :=
  ["mem_used_percent", "Memory % Committed Bytes In Use", "Memory Available Mbytes",
   "LogicalDisk % Free Space", "disk_used_percent"]

/-- Whether an event is the Windows probe's `list_metrics` request. -/
def isProbeEvent (e : CWEvent) : Bool := e == probeEvent

/-- A backend exposing one `disk_used_percent` metric with path `/usr2`. -/
def pathEnv : CWEnv :=
  ⟨fun _ _ _ => .ok [[⟨"path", "/usr2"⟩]], fun _ _ _ => .ok none⟩

/-- Total of the six counters. -/
def sumCounts (c : PlatformCounts) : ℕ :=
  c.windowsRunning + c.windowsStopped + c.linuxRunning + c.linuxStopped +
    c.suseRunning + c.suseStopped

theorem sumCounts_countStep (c : PlatformCounts) (p : String × InstanceInfo) :
    sumCounts (countStep c p) = sumCounts c + 1 := by
  unfold countStep sumCounts
  split_ifs <;> simp <;> ring

theorem sumCounts_foldl (l : Fleet) :
    ∀ c : PlatformCounts, sumCounts (l.foldl countStep c) = sumCounts c + l.length := by
  induction l with
  | nil => intro c; simp
  | cons p t ih =>
    intro c
    simp only [List.foldl_cons, List.length_cons, ih, sumCounts_countStep]
    ring

theorem sumCounts_countInstances (fleet : Fleet) :
    sumCounts (countInstances fleet) = fleet.length := by
  unfold countInstances
  rw [sumCounts_foldl]
  simp [sumCounts]

/-- C5: in the instance-type summary table, each platform row's Total cell is
its Running plus its Stopped cell, the Total Servers row is the column-wise sum
of the three platform rows, and its grand-total cell equals the number of
instances in the map. -/
theorem c5_summary_totals (fleet : Fleet) :
    (buildSummaryTable fleet).windowsRow.2.2 =
        (buildSummaryTable fleet).windowsRow.1 + (buildSummaryTable fleet).windowsRow.2.1 ∧
    (buildSummaryTable fleet).linuxRow.2.2 =
        (buildSummaryTable fleet).linuxRow.1 + (buildSummaryTable fleet).linuxRow.2.1 ∧
    (buildSummaryTable fleet).suseRow.2.2 =
        (buildSummaryTable fleet).suseRow.1 + (buildSummaryTable fleet).suseRow.2.1 ∧
    (buildSummaryTable fleet).totalRow.1 =
        (buildSummaryTable fleet).windowsRow.1 + (buildSummaryTable fleet).linuxRow.1 +
          (buildSummaryTable fleet).suseRow.1 ∧
    (buildSummaryTable fleet).totalRow.2.1 =
        (buildSummaryTable fleet).windowsRow.2.1 + (buildSummaryTable fleet).linuxRow.2.1 +
          (buildSummaryTable fleet).suseRow.2.1 ∧
    (buildSummaryTable fleet).totalRow.2.2 =
        (buildSummaryTable fleet).windowsRow.2.2 + (buildSummaryTable fleet).linuxRow.2.2 +
          (buildSummaryTable fleet).suseRow.2.2 ∧
    (buildSummaryTable fleet).totalRow.2.2 = fleet.length := by
  have h := sumCounts_countInstances fleet
  unfold sumCounts at h
  unfold buildSummaryTable
  refine ⟨rfl, rfl, rfl, rfl, rfl, by dsimp only; ring, by dsimp only; omega⟩

/-- C4: in every detail-table row, when both the Used % and the Free % cells
hold numbers, they sum to exactly 100 (hence to 100 within one decimal): the
used cell is the reading rounded to one decimal and the free cell is 100 minus
that rounded value, rounded again. -/
theorem c4_used_plus_free (d : Metrics) (r : MetricRow) (hr : r ∈ metricRows d)
    (u f : ℚ) (hu : r.used = .num u) (hf : r.free = .num f) : u + f = 100 := by
  have key : ∀ v : ℚ, u = pyRound1 v → f = pyRound1 (100 - pyRound1 v) → u + f = 100 := by
    intro v h1 h2
    rw [h1, h2, pyRound1_complement]
  simp only [metricRows, List.mem_cons] at hr
  rcases hr with h | h | h
  · rcases hc : d.cpu with _ | v
    · rw [h] at hu; simp [usedFreeCells, hc] at hu
    · rw [h] at hu hf
      simp only [usedFreeCells, hc, Cell.num.injEq] at hu hf
      exact key v hu.symm hf.symm
  · rcases hm : d.memory.used_percent with _ | v
    · rw [h] at hu; simp [hm] at hu
    · rw [h] at hu hf
      simp only [hm, Cell.num.injEq] at hu hf
      exact key v hu.symm hf.symm
  · rcases hds : d.disks with _ | ⟨dk0, rest⟩
    · simp only [hds, List.mem_singleton] at h
      rw [h] at hu
      simp at hu
    · simp only [hds, List.mem_map] at h
      obtain ⟨dk, _, hdk⟩ := h
      rcases hv : dk.used_percent with _ | v
      · rw [← hdk] at hu; simp [hv] at hu
      · rw [← hdk] at hu hf
        simp only [hv, Cell.num.injEq] at hu hf
        exact key v hu.symm hf.symm

/-- C4 witness: the CPU row of a concrete record with reading 62.5 renders
used 62.5 and free 37.5, and the theorem applies to it. -/
theorem c4_witness : (62.5 : ℚ) + 37.5 = 100 :=
  c4_used_plus_free (mkCpuOnly "i-1" 62.5)
    ⟨"CPU", none, .num 62.5, .num 37.5⟩
    (by
      have h1 : pyRound1 (62.5 : ℚ) = 62.5 := by
        apply pyRound1_eq_self _ 625
        norm_num
      have h2 : pyRound1 ((100 : ℚ) - 62.5) = 37.5 := by
        have e : (100 : ℚ) - 62.5 = 37.5 := by norm_num
        rw [e]
        apply pyRound1_eq_self _ 375
        norm_num
      simp [metricRows, mkCpuOnly, usedFreeCells, h1, h2, emptyMem])
    62.5 37.5 rfl rfl

/-- C8: the whole handler body runs under one top-level catch, so for every
environment the handler returns a status/message pair and never propagates an
exception: a 500 whose body carries the exception text when the body failed,
otherwise a 200 whose body names the uploaded object's location (bucket and
timestamped key); the body is evaluated once, with no retry. -/
theorem c8_top_level_catch (env : RunEnv) :
    ((lambdaHandler env).statusCode = 200 ∨ (lambdaHandler env).statusCode = 500) ∧
    (∀ e, runBody env = .error e → lambdaHandler env = ⟨500, "Error: " ++ e⟩) ∧
    (∀ m, runBody env = .ok m → lambdaHandler env = ⟨200, m⟩ ∧
      m = "Report uploaded to s3://" ++ S3_BUCKET ++ "/" ++
            (S3_KEY_STEM ++ "_" ++ env.timestamp ++ ".xlsx")) := by
  refine ⟨?_, ?_, ?_⟩
  · unfold lambdaHandler
    rcases runBody env with e | m <;> simp
  · intro e he
    unfold lambdaHandler
    rw [he]
  · intro m hm
    constructor
    · unfold lambdaHandler
      rw [hm]
    · unfold runBody at hm
      rcases hf : env.fleet with e | allInst <;> rw [hf] at hm
      · exact absurd hm (by simp)
      · dsimp only at hm
        rcases hp : env.putObject
            (createExcelReport
              ((runningInstances allInst).map (fun p => (getInstanceMetrics env.cw p.1).2))
              (runningInstances allInst) allInst env.accountNumber env.specs) with e | u <;>
          rw [hp] at hm
        · exact absurd hm (by simp)
        · simpa using hm.symm

/-- C8 witness: with an empty fleet and a successful upload the handler returns
200 and the timestamped S3 location; with a failing describe call it returns
500 with the exception text. -/
theorem c8_witness :
    lambdaHandler
        ⟨"111122223333", .ok [], trivEnv, fun _ => ("Unknown", "Unknown"), fun _ => .ok (),
         "20250101_000000"⟩ =
      ⟨200, "Report uploaded to s3://audit-log-sm20-bucket/status/Sapphire-PRD_20250101_000000.xlsx"⟩ ∧
    lambdaHandler
        ⟨"111122223333", .error "boom", trivEnv, fun _ => ("Unknown", "Unknown"), fun _ => .ok (),
         "20250101_000000"⟩ =
      ⟨500, "Error: boom"⟩ := by
  constructor
  · have h : runBody
        ⟨"111122223333", .ok [], trivEnv, fun _ => ("Unknown", "Unknown"), fun _ => .ok (),
         "20250101_000000"⟩ =
        .ok "Report uploaded to s3://audit-log-sm20-bucket/status/Sapphire-PRD_20250101_000000.xlsx" := by
      rfl
    exact ((c8_top_level_catch _).2.2 _ h).1
  · have h : runBody
        ⟨"111122223333", .error "boom", trivEnv, fun _ => ("Unknown", "Unknown"), fun _ => .ok (),
         "20250101_000000"⟩ = .error "boom" := by
      rfl
    exact (c8_top_level_catch _).2.1 "boom" h

/-- C9: `get_linux_disk_dimensions` keeps exactly the dimension sets whose
(first) `path` dimension is truthy and is `/` or starts with `/usr` or
`/hana`; in particular `/usr2` and `/hana-log` pass the test even though the
unused constant `ALLOWED_DISK_PATHS` holds only the three exact strings. -/
theorem c9_linux_disk_paths (env : CWEnv) (iid : String) (L : List (List Dim))
    (h : env.listMetricsRes "CWAgent" "disk_used_percent" iid = .ok L) :
    (getLinuxDiskDimensions env iid).2 = .ok (L.filter linuxDiskPred) ∧
    (∀ dims, dims ∈ L.filter linuxDiskPred ↔ dims ∈ L ∧ linuxDiskPred dims = true) ∧
    linuxDiskPred [⟨"path", "/usr2"⟩] = true ∧
    linuxDiskPred [⟨"path", "/hana-log"⟩] = true ∧
    "/usr2" ∉ ALLOWED_DISK_PATHS ∧ "/hana-log" ∉ ALLOWED_DISK_PATHS := by
  refine ⟨?_, ?_, by decide, by decide, by decide, by decide⟩
  · unfold getLinuxDiskDimensions
    rw [h]
  · intro dims
    exact List.mem_filter

/-- C9 witness: a backend exposing one metric with path `/usr2` yields exactly
that dimension set. -/
theorem c9_witness :
    (getLinuxDiskDimensions pathEnv "i-0").2 =
      .ok ([[⟨"path", "/usr2"⟩]].filter linuxDiskPred) :=
  (c9_linux_disk_paths pathEnv "i-0" [[⟨"path", "/usr2"⟩]] rfl).1

/-- C10: `get_instance_metrics` is total (any exception in the collection body
is caught): for every backend behaviour, including ones that raise anywhere,
the returned record carries the requested instance id, and its `error` field is
either absent or the caught exception's text; hence a worker future for it
never raises and `lambda_handler`'s per-future `except` branch cannot fire for
collection errors. -/
theorem c10_collection_total (env : CWEnv) (iid : String) :
    ((getInstanceMetrics env iid).2).instance_id = iid ∧
    ((getInstanceMetrics env iid).2.error = none ∨
      ∃ m, (getInstanceMetrics env iid).2.error = some ("Failed to get metrics: " ++ m)) := by
  unfold getInstanceMetrics
  repeat' split
  all_goals
    first
    | exact ⟨rfl, Or.inl rfl⟩
    | exact ⟨rfl, Or.inr ⟨_, rfl⟩⟩

theorem collectAlerts_single (allInst : Fleet) (dm : Metrics) (h : dm.error = none) :
    collectAlerts allInst [dm] = recordAlerts allInst dm := by
  simp [collectAlerts, h]

/-- C1 (amended): the summary-section classification of each metric reading
(CPU, memory or a disk path) of a record without error: a value > 60 yields one
critical ('Action Required') alert, a value in the closed interval [50, 60]
yields one warning alert, and a value < 50 yields no alert.  (The code files a
reading of exactly 50 as a warning, not as no alert.) -/
theorem c1_alert_classification (allInst : Fleet) (iid p : String) (v : ℚ)
    (d : Metrics) (hd : d ∈ [mkCpuOnly iid v, mkMemOnly iid v, mkDiskOnly iid p v]) :
    ((60 < v) ↔
      ((collectAlerts allInst [d]).1 = [] ∧ (collectAlerts allInst [d]).2.length = 1)) ∧
    ((50 ≤ v ∧ v ≤ 60) ↔
      ((collectAlerts allInst [d]).1.length = 1 ∧ (collectAlerts allInst [d]).2 = [])) ∧
    ((v < 50) ↔
      ((collectAlerts allInst [d]).1 = [] ∧ (collectAlerts allInst [d]).2 = [])) := by
  simp only [List.mem_cons, List.not_mem_nil, or_false] at hd
  rcases hd with h | h | h <;> subst h <;>
    rw [collectAlerts_single allInst _ rfl] <;>
    by_cases h50 : (50 : ℚ) ≤ v <;> by_cases h60 : (60 : ℚ) < v <;>
    first
      | (exfalso; rw [not_le] at h50; linarith)
      | (have hA : ¬ v ≤ 60 := not_le.mpr h60
         have hB : ¬ v < 50 := not_lt.mpr (by linarith)
         simp [recordAlerts, mkCpuOnly, mkMemOnly, mkDiskOnly, emptyMem, h50, h60, hA, hB])
      | (have hA : v ≤ 60 := not_lt.mp h60
         have hB : ¬ v < 50 := not_lt.mpr h50
         simp [recordAlerts, mkCpuOnly, mkMemOnly, mkDiskOnly, emptyMem, h50, h60, hA, hB])
      | (have hA : v < 50 := not_le.mp h50
         have hB : v ≤ 60 := by linarith
         simp [recordAlerts, mkCpuOnly, mkMemOnly, mkDiskOnly, emptyMem, h50, h60, hA, hB])

/-- C1 counterexample: the claim says a value ≤ 50 produces no alert, but the
code's `>= 50` guard files a CPU reading of exactly 50 as a warning alert. -/
theorem c1_claim_false_at_50 :
    (50 : ℚ) ≤ 50 ∧ (collectAlerts [] [mkCpuOnly "i-1" 50]).1 ≠ [] := by
  constructor
  · exact le_refl _
  · have h50 : (50 : ℚ) ≤ 50 := le_refl _
    have h60 : ¬ (60 : ℚ) < 50 := by norm_num
    simp [collectAlerts, recordAlerts, mkCpuOnly, emptyMem, h50, h60]

/-- C1 witness: a CPU reading of 70 yields exactly one critical alert and no
warning. -/
theorem c1_witness :
    (collectAlerts [] [mkCpuOnly "i-1" 70]).1 = [] ∧
    (collectAlerts [] [mkCpuOnly "i-1" 70]).2.length = 1 :=
  ((c1_alert_classification [] "i-1" "/" 70 (mkCpuOnly "i-1" 70) (by simp)).1).mp
    (by norm_num)

theorem keyUnique (l : Fleet) (hnd : (l.map Prod.fst).Nodup) :
    ∀ a b c, (a, b) ∈ l → (a, c) ∈ l → b = c := by
  induction l with
  | nil => intro a b c hb _; simp at hb
  | cons pr t ih =>
    intro a b c hb hc
    simp only [List.map_cons, List.nodup_cons] at hnd
    rcases List.mem_cons.mp hb with hb1 | hb1 <;> rcases List.mem_cons.mp hc with hc1 | hc1
    · rw [← hb1] at hc1
      exact congrArg Prod.snd hc1.symm
    · exfalso
      apply hnd.1
      rw [← hb1]
      exact List.mem_map.mpr ⟨(a, c), hc1, rfl⟩
    · exfalso
      apply hnd.1
      rw [← hc1]
      exact List.mem_map.mpr ⟨(a, b), hb1, rfl⟩
    · exact ih hnd.2 a b c hb1 hc1

/-- C2: an instance whose lifecycle state is not `running` gets the detail body
`Metrics: Not available (instance stopped)` in place of a metrics table, and
(when the fleet map has unique keys, as a Python dict does) its id is not among
the ids submitted to the worker pool, which are exactly the keys surviving the
running-state filter. -/
theorem c2_stopped_instances (fleet : Fleet) (md : List Metrics) (iid : String)
    (info : InstanceInfo) (hstate : info.state ≠ "running") :
    detailBody md iid info = .message "Metrics: Not available (instance stopped)" ∧
    ((fleet.map Prod.fst).Nodup → (iid, info) ∈ fleet → iid ∉ submittedIds fleet) := by
  constructor
  · have hb : (info.state == "running") = false := beq_eq_false_iff_ne.mpr hstate
    unfold detailBody
    rw [hb]
    simp
  · intro hnd hmem hsub
    unfold submittedIds runningInstances at hsub
    obtain ⟨q, hq, hq1⟩ := List.mem_map.mp hsub
    obtain ⟨hqf, hqs⟩ := List.mem_filter.mp hq
    have hqs' : q.2.state = "running" := by simpa using hqs
    have hpair : (iid, q.2) ∈ fleet := by
      rw [← hq1]
      exact hqf
    have : info = q.2 := keyUnique fleet hnd iid info q.2 hmem hpair
    rw [this] at hstate
    exact hstate hqs'

/-- C2 witness: a concrete stopped instance gets the stopped message and is not
submitted to the pool. -/
theorem c2_witness :
    detailBody [] "i-1" ⟨"web", "Linux/UNIX", "t3.micro", "stopped"⟩ =
      .message "Metrics: Not available (instance stopped)" ∧
    "i-1" ∉ submittedIds [("i-1", ⟨"web", "Linux/UNIX", "t3.micro", "stopped"⟩)] := by
  have t := c2_stopped_instances [("i-1", ⟨"web", "Linux/UNIX", "t3.micro", "stopped"⟩)]
    [] "i-1" ⟨"web", "Linux/UNIX", "t3.micro", "stopped"⟩ (by decide)
  exact ⟨t.1, t.2 (by simp) (by simp)⟩

theorem find_failInstance_ne (md : List Metrics) (i msg j : String) (hji : j ≠ i) :
    (md.map (failInstance i msg)).find? (fun d => d.instance_id == j) =
      md.find? (fun d => d.instance_id == j) := by
  induction md with
  | nil => rfl
  | cons d t ih =>
    by_cases hdi : d.instance_id = i
    · have h1 : failInstance i msg d = errRecord i msg := by simp [failInstance, hdi]
      have h2 : (d.instance_id == j) = false := by
        rw [hdi]
        exact beq_eq_false_iff_ne.mpr (Ne.symm hji)
      have h3 : ((errRecord i msg).instance_id == j) = false :=
        beq_eq_false_iff_ne.mpr (Ne.symm hji)
      simp only [List.map_cons, List.find?_cons, h1, h2, h3, ih]
    · have h1 : failInstance i msg d = d := by simp [failInstance, hdi]
      simp only [List.map_cons, List.find?_cons, h1, ih]

theorem find_failInstance_self (md : List Metrics) (i msg : String)
    (h : ∃ d, d ∈ md ∧ d.instance_id = i) :
    (md.map (failInstance i msg)).find? (fun d => d.instance_id == i) =
      some (errRecord i msg) := by
  induction md with
  | nil => simp at h
  | cons d t ih =>
    by_cases hdi : d.instance_id = i
    · have h1 : failInstance i msg d = errRecord i msg := by simp [failInstance, hdi]
      have h2 : (((errRecord i msg).instance_id) == i) = true := by simp [errRecord]
      simp only [List.map_cons, List.find?_cons, h1, h2]
    · have h1 : failInstance i msg d = d := by simp [failInstance, hdi]
      have h2 : (d.instance_id == i) = false := beq_eq_false_iff_ne.mpr hdi
      have h3 : ∃ d', d' ∈ t ∧ d'.instance_id = i := by
        obtain ⟨d', hd', hid⟩ := h
        rcases List.mem_cons.mp hd' with rfl | hmem
        · exact absurd hid hdi
        · exact ⟨d', hmem, hid⟩
      simp only [List.map_cons, List.find?_cons, h1, h2, ih h3]

/-- C3: replacing one instance's metrics record with the handler's error record
leaves every other instance's detail body exactly as it would have been, the
failing running instance's detail body shows its error text in place of data,
and the report still renders one detail block per instance of the map (the run
is not aborted). -/
theorem c3_fault_isolation (md : List Metrics) (i msg j : String) (info : InstanceInfo) :
    (j ≠ i → detailBody (md.map (failInstance i msg)) j info = detailBody md j info) ∧
    (info.state = "running" → (∃ d, d ∈ md ∧ d.instance_id = i) →
      detailBody (md.map (failInstance i msg)) i info =
        .message ("Metrics: Not available (" ++ msg ++ ")")) ∧
    (∀ (specs : String → String × String) (acct : String) (allInst : Fleet),
      (createExcelReport (md.map (failInstance i msg)) (runningInstances allInst) allInst
          acct specs).details.length = allInst.length) := by
  refine ⟨?_, ?_, ?_⟩
  · intro hji
    unfold detailBody
    rw [find_failInstance_ne md i msg j hji]
  · intro hrun hex
    have hb : (info.state == "running") = true := by simp [hrun]
    unfold detailBody
    rw [hb, find_failInstance_self md i msg hex]
    simp [errRecord]
  · intro specs acct allInst
    simp [createExcelReport]

/-- C3 witness: with two clean records, failing `i-1` leaves `i-2`'s detail
body unchanged and renders the error text for `i-1`. -/
theorem c3_witness :
    detailBody
        ([⟨"i-1", some 10, emptyMem, [], none⟩,
          ⟨"i-2", some 20, emptyMem, [], none⟩].map (failInstance "i-1" "Failed: boom"))
        "i-2" ⟨"db", "Linux/UNIX", "t3.micro", "running"⟩ =
      detailBody
        [⟨"i-1", some 10, emptyMem, [], none⟩, ⟨"i-2", some 20, emptyMem, [], none⟩]
        "i-2" ⟨"db", "Linux/UNIX", "t3.micro", "running"⟩ ∧
    detailBody
        ([⟨"i-1", some 10, emptyMem, [], none⟩,
          ⟨"i-2", some 20, emptyMem, [], none⟩].map (failInstance "i-1" "Failed: boom"))
        "i-1" ⟨"db", "Linux/UNIX", "t3.micro", "running"⟩ =
      .message "Metrics: Not available (Failed: boom)" := by
  constructor
  · exact (c3_fault_isolation _ "i-1" "Failed: boom" "i-2"
      ⟨"db", "Linux/UNIX", "t3.micro", "running"⟩).1 (by decide)
  · exact (c3_fault_isolation _ "i-1" "Failed: boom" "i-2"
      ⟨"db", "Linux/UNIX", "t3.micro", "running"⟩).2.1 rfl
      ⟨⟨"i-1", some 10, emptyMem, [], none⟩, by simp, rfl⟩

theorem countFoldl_no_running (l : Fleet) (h : ∀ pr ∈ l, pr.2.state ≠ "running") :
    ∀ c : PlatformCounts,
      (l.foldl countStep c).windowsRunning = c.windowsRunning ∧
      (l.foldl countStep c).linuxRunning = c.linuxRunning ∧
      (l.foldl countStep c).suseRunning = c.suseRunning := by
  induction l with
  | nil => intro c; exact ⟨rfl, rfl, rfl⟩
  | cons pr t ih =>
    intro c
    have hpr := h pr (List.mem_cons_self _ _)
    have ht : ∀ q ∈ t, q.2.state ≠ "running" := fun q hq => h q (List.mem_cons_of_mem _ hq)
    have hb : (pr.2.state == "running") = false := beq_eq_false_iff_ne.mpr hpr
    have hw : (countStep c pr).windowsRunning = c.windowsRunning := by
      simp only [countStep, hb, Bool.false_eq_true, if_false]
      split_ifs <;> rfl
    have hl : (countStep c pr).linuxRunning = c.linuxRunning := by
      simp only [countStep, hb, Bool.false_eq_true, if_false]
      split_ifs <;> rfl
    have hs : (countStep c pr).suseRunning = c.suseRunning := by
      simp only [countStep, hb, Bool.false_eq_true, if_false]
      split_ifs <;> rfl
    obtain ⟨w, li, s⟩ := ih ht (countStep c pr)
    rw [List.foldl_cons]
    exact ⟨w.trans hw, li.trans hl, s.trans hs⟩

/-- C7: with zero running instances the run still renders: the running filter
submits nothing (so the metrics data is empty), both alert tables of the
summary are empty, every platform row shows a zero Running count, the Stopped
counts add up to the whole fleet, and the report still carries one detail block
per instance. -/
theorem c7_zero_running (fleet : Fleet) (acct : String)
    (specs : String → String × String)
    (h : ∀ pr ∈ fleet, pr.2.state ≠ "running") :
    runningInstances fleet = [] ∧
    (createSummarySection fleet [] acct).yellowAlerts = [] ∧
    (createSummarySection fleet [] acct).redAlerts = [] ∧
    (countInstances fleet).windowsRunning = 0 ∧
    (countInstances fleet).linuxRunning = 0 ∧
    (countInstances fleet).suseRunning = 0 ∧
    (countInstances fleet).windowsStopped + (countInstances fleet).linuxStopped +
        (countInstances fleet).suseStopped = fleet.length ∧
    (createExcelReport [] (runningInstances fleet) fleet acct specs).details.length =
      fleet.length := by
  obtain ⟨hw, hl, hs⟩ := countFoldl_no_running fleet h ⟨0, 0, 0, 0, 0, 0⟩
  have hsum := sumCounts_countInstances fleet
  unfold sumCounts at hsum
  have hrun : runningInstances fleet = [] := by
    unfold runningInstances
    rw [List.filter_eq_nil_iff]
    intro pr hpr
    simpa using h pr hpr
  refine ⟨hrun, rfl, rfl, hw, hl, hs, ?_, by simp [createExcelReport]⟩
  have hw' : (countInstances fleet).windowsRunning = 0 := hw
  have hl' : (countInstances fleet).linuxRunning = 0 := hl
  have hs' : (countInstances fleet).suseRunning = 0 := hs
  omega

/-- C7 witness: a fleet with one stopped Windows instance renders with no
alerts, zero Running counts, and a single stopped count. -/
theorem c7_witness :
    runningInstances [("i-1", ⟨"w", "Windows", "t3.large", "stopped"⟩)] = [] ∧
    (createSummarySection [("i-1", ⟨"w", "Windows", "t3.large", "stopped"⟩)] []
        "111122223333").yellowAlerts = [] ∧
    (countInstances [("i-1", ⟨"w", "Windows", "t3.large", "stopped"⟩)]).windowsRunning = 0 ∧
    (countInstances [("i-1", ⟨"w", "Windows", "t3.large", "stopped"⟩)]).windowsStopped +
        (countInstances [("i-1", ⟨"w", "Windows", "t3.large", "stopped"⟩)]).linuxStopped +
        (countInstances [("i-1", ⟨"w", "Windows", "t3.large", "stopped"⟩)]).suseStopped = 1 := by
  have t := c7_zero_running [("i-1", ⟨"w", "Windows", "t3.large", "stopped"⟩)]
    "111122223333" (fun _ => ("Unknown", "Unknown")) (by decide)
  exact ⟨t.1, t.2.1, t.2.2.2.1, t.2.2.2.2.2.2.1⟩

theorem tryEachValue_names (env : CWEnv) (nm ns : String) :
    ∀ (l : List (List Dim)) (e : CWEvent), e ∈ (tryEachValue env nm ns l).1 →
      eventMetricName e = nm := by
  intro l
  induction l with
  | nil =>
    intro e he
    simp [tryEachValue] at he
  | cons dims rest ih =>
    intro e he
    simp only [tryEachValue, getCurrentMetricValue] at he
    rcases hr : env.metricValueRes nm ns dims with err | v <;> rw [hr] at he
    · rcases err with m | m <;> simp at he
      · rcases he with rfl | he
        · rfl
        · exact ih e he
      · rw [he]; rfl
    · rcases v with _ | v <;> simp at he
      · rcases he with rfl | he
        · rfl
        · exact ih e he
      · rw [he]; rfl

theorem winMemCommitted_names (env : CWEnv) (iid : String) :
    ∀ e ∈ (winMemCommitted env iid).1,
      eventMetricName e = "Memory % Committed Bytes In Use" := by
  intro e he
  unfold winMemCommitted at he
  rcases hr : env.listMetricsRes "CWAgent" "Memory % Committed Bytes In Use" iid
      with err | L <;> rw [hr] at he
  · rcases err with m | m <;> simp at he <;> (rw [he]; rfl)
  · simp at he
    rcases he with rfl | he
    · rfl
    · exact tryEachValue_names env _ "CWAgent" _ e he

theorem winMemAvailable_names (env : CWEnv) (iid : String) :
    ∀ e ∈ (winMemAvailable env iid).1,
      eventMetricName e = "Memory Available Mbytes" := by
  intro e he
  unfold winMemAvailable at he
  rcases hr : env.listMetricsRes "CWAgent" "Memory Available Mbytes" iid
      with err | L <;> rw [hr] at he
  · rcases err with m | m <;> simp at he <;> (rw [he]; rfl)
  · simp at he
    rcases he with rfl | he
    · rfl
    · exact tryEachValue_names env _ "CWAgent" _ e he

theorem linuxMemBlock_names (env : CWEnv) (iid : String) :
    ∀ e ∈ (linuxMemBlock env iid).1, eventMetricName e = "mem_used_percent" := by
  intro e he
  unfold linuxMemBlock at he
  rcases hr : env.listMetricsRes "CWAgent" "mem_used_percent" iid with err | L <;>
    rw [hr] at he
  · rcases err with m | m <;> simp at he <;> (rw [he]; rfl)
  · dsimp only at he
    rcases htr : tryEachValue env "mem_used_percent" "CWAgent" L with ⟨evs, r⟩
    rw [htr] at he
    simp at he
    rcases he with rfl | he
    · rfl
    · exact tryEachValue_names env _ "CWAgent" L e (by rw [htr]; exact he)

theorem getMemoryMetric_names (env : CWEnv) (iid : String) :
    ∀ e ∈ (getMemoryMetric env iid).1,
      eventMetricName e = "mem_used_percent" ∨
      eventMetricName e = "Memory % Committed Bytes In Use" ∨
      eventMetricName e = "Memory Available Mbytes" := by
  intro e he
  unfold getMemoryMetric at he
  rcases h1 : linuxMemBlock env iid with ⟨ev1, r1⟩
  rw [h1] at he
  have hv1 : ∀ e' ∈ ev1, eventMetricName e' = "mem_used_percent" := by
    intro e' he'
    exact linuxMemBlock_names env iid e' (by rw [h1]; exact he')
  rcases r1 with er | v1
  · exact Or.inl (hv1 e he)
  · rcases h2 : winMemCommitted env iid with ⟨ev2, r2⟩
    rw [h2] at he
    have hv2 : ∀ e' ∈ ev2, eventMetricName e' = "Memory % Committed Bytes In Use" := by
      intro e' he'
      exact winMemCommitted_names env iid e' (by rw [h2]; exact he')
    rcases h3 : winMemAvailable env iid with ⟨ev3, r3⟩
    rw [h3] at he
    have hv3 : ∀ e' ∈ ev3, eventMetricName e' = "Memory Available Mbytes" := by
      intro e' he'
      exact winMemAvailable_names env iid e' (by rw [h3]; exact he')
    rcases v1 with _ | v1
    · rcases r2 with er | v2
      · simp at he
        rcases he with he | he
        · exact Or.inl (hv1 e he)
        · exact Or.inr (Or.inl (hv2 e he))
      · rcases v2 with _ | v2
        · rcases r3 with er | v3
          · simp at he
            rcases he with he | he | he
            · exact Or.inl (hv1 e he)
            · exact Or.inr (Or.inl (hv2 e he))
            · exact Or.inr (Or.inr (hv3 e he))
          · rcases v3 with _ | v3 <;> simp at he <;>
              (rcases he with he | he | he
               · exact Or.inl (hv1 e he)
               · exact Or.inr (Or.inl (hv2 e he))
               · exact Or.inr (Or.inr (hv3 e he)))
        · simp at he
          rcases he with he | he
          · exact Or.inl (hv1 e he)
          · exact Or.inr (Or.inl (hv2 e he))
    · exact Or.inl (hv1 e he)

theorem linuxDiskLoop_names (env : CWEnv) :
    ∀ (l : List (List Dim)) (e : CWEvent), e ∈ (linuxDiskLoop env l).1 →
      eventMetricName e = "disk_used_percent" := by
  intro l
  induction l with
  | nil =>
    intro e he
    simp [linuxDiskLoop] at he
  | cons dims rest ih =>
    intro e he
    simp only [linuxDiskLoop, getCurrentMetricValue] at he
    rcases hr : env.metricValueRes "disk_used_percent" "CWAgent" dims with err | v <;>
      rw [hr] at he
    · rcases err with m | m <;> simp at he
      · rcases he with rfl | he
        · rfl
        · exact ih e he
      · rw [he]; rfl
    · simp at he
      rcases he with rfl | he
      · rfl
      · exact ih e he

theorem winDiskLoop_names (env : CWEnv) :
    ∀ (l : List (List Dim)) (processed : List String) (e : CWEvent),
      e ∈ (winDiskLoop env processed l).1 →
      eventMetricName e = "LogicalDisk % Free Space" := by
  intro l
  induction l with
  | nil =>
    intro processed e he
    simp [winDiskLoop] at he
  | cons dims rest ih =>
    intro processed e he
    simp only [winDiskLoop, getCurrentMetricValue] at he
    rcases hdl : driveLetterOf dims with _ | drive <;> rw [hdl] at he <;>
      dsimp only at he
    · exact ih processed e he
    · by_cases hp : processed.contains drive = true
      · rw [if_pos hp] at he
        exact ih processed e he
      · rw [if_neg hp] at he
        by_cases ho : (objectnameOf dims == some "LogicalDisk") = true
        · rw [if_pos ho] at he
          rcases hr : env.metricValueRes "LogicalDisk % Free Space" "CWAgent" dims
              with err | v <;> rw [hr] at he
          · rcases err with m | m <;> simp at he
            · rcases he with rfl | he
              · rfl
              · exact ih (drive :: processed) e he
            · rw [he]; rfl
          · simp at he
            rcases he with rfl | he
            · rfl
            · exact ih (drive :: processed) e he
        · rw [if_neg ho] at he
          exact ih processed e he

theorem getWindowsDisksAll_names (env : CWEnv) (iid : String) :
    ∀ e ∈ (getWindowsDisksAll env iid).1,
      eventMetricName e = "LogicalDisk % Free Space" := by
  intro e he
  unfold getWindowsDisksAll at he
  rcases hr : env.listMetricsRes "CWAgent" "LogicalDisk % Free Space" iid with err | L <;>
    rw [hr] at he
  · rcases err with m | m <;> simp at he <;> (rw [he]; rfl)
  · dsimp only at he
    rcases hw : winDiskLoop env [] L with ⟨evs, r⟩
    rw [hw] at he
    simp at he
    rcases he with rfl | he
    · rfl
    · exact winDiskLoop_names env L [] e (by rw [hw]; exact he)

theorem getLinuxDiskDimensions_events (env : CWEnv) (iid : String) :
    (getLinuxDiskDimensions env iid).1 = [CWEvent.listReq "CWAgent" "disk_used_percent"] := by
  unfold getLinuxDiskDimensions
  rcases hr : env.listMetricsRes "CWAgent" "disk_used_percent" iid with err | L
  · rcases err with m | m <;> rfl
  · rfl

theorem getCurrentMetricValue_fst (env : CWEnv) (nm ns : String) (dims : List Dim) :
    (getCurrentMetricValue env nm ns dims).1 = [.valueReq nm ns dims] := rfl

/-- C6 counterexample: at the backend that lists no metrics at all, the
collector's request trace asks for the Linux memory metric name
`mem_used_percent` at position 1, while the Windows LogicalDisk probe is at
position 4 — so platform-dependent metric names are chosen and requested
before the probe, contradicting the claim that the probe comes first. -/
theorem c6_probe_not_before_memory :
    ((getInstanceMetrics trivEnv "i-0").1.map eventMetricName).take 4 =
      ["CPUUtilization", "mem_used_percent", "Memory % Committed Bytes In Use",
        "Memory Available Mbytes"] ∧
    "mem_used_percent" ∈ platformSpecificMetricNames ∧
    (getInstanceMetrics trivEnv "i-0").1.findIdx isProbeEvent = 4 := by
  exact ⟨by decide, by decide, by decide⟩

/-- C6 (amended): the Windows LogicalDisk probe gates the disk metrics only:
no disk metric name (`disk_used_percent` or `LogicalDisk % Free Space`) is
requested before the probe, and every disk metric request after it uses the
Windows name exactly when the probe found LogicalDisk metrics and the Linux
name otherwise.  (Memory metric names are requested before the probe by trying
the Linux name first, not by probing.) -/
theorem c6_probe_gates_disk_metrics (env : CWEnv) (iid : String) :
    ∃ pre post,
      ((getInstanceMetrics env iid).1 = pre ++ probeEvent :: post ∨
        ((getInstanceMetrics env iid).1 = pre ∧ post = [])) ∧
      (∀ e ∈ pre, isDiskMetricEvent e = false) ∧
      (∀ e ∈ post, isDiskMetricEvent e = true →
        eventMetricName e =
          (if probeWindows env iid then "LogicalDisk % Free Space"
           else "disk_used_percent")) := by
  have hCn : ∀ e ∈ (getCurrentMetricValue env "CPUUtilization" "AWS/EC2"
      [⟨"InstanceId", iid⟩]).1, isDiskMetricEvent e = false := by
    intro e he
    rw [getCurrentMetricValue_fst] at he
    simp at he
    rw [he]
    rfl
  have hMn : ∀ e ∈ (getMemoryMetric env iid).1, isDiskMetricEvent e = false := by
    intro e he
    rcases getMemoryMetric_names env iid e he with h | h | h <;>
      (unfold isDiskMetricEvent; rw [h]; decide)
  unfold getInstanceMetrics
  rcases hC : getCurrentMetricValue env "CPUUtilization" "AWS/EC2" [⟨"InstanceId", iid⟩]
      with ⟨evC, rC⟩
  rw [hC] at hCn
  rcases rC with eC | cpu
  · refine ⟨evC, [], Or.inr ⟨rfl, rfl⟩, hCn, by simp⟩
  · rcases hM : getMemoryMetric env iid with ⟨evM, rM⟩
    rw [hM] at hMn
    have hPren : ∀ e ∈ evC ++ evM, isDiskMetricEvent e = false := by
      intro e he
      rcases List.mem_append.mp he with h | h
      · exact hCn e h
      · exact hMn e h
    rcases rM with eM | mem
    · exact ⟨evC ++ evM, [], Or.inr ⟨by simp, rfl⟩, hPren, by simp⟩
    · cases hPW : probeWindows env iid
      · rcases hL : getLinuxDiskDimensions env iid with ⟨evL, rL⟩
        have hLn : ∀ e ∈ evL, eventMetricName e = "disk_used_percent" := by
          intro e he
          have hevs := getLinuxDiskDimensions_events env iid
          rw [hL] at hevs
          dsimp only at hevs
          rw [hevs] at he
          simp at he
          rw [he]
          rfl
        rcases rL with eL | dimsList
        · exact ⟨evC ++ evM, evL, Or.inl (by simp), hPren, fun e he _ => hLn e he⟩
        · rcases hD : linuxDiskLoop env dimsList with ⟨evD, entries, errTail⟩
          have hDn : ∀ e ∈ evD, eventMetricName e = "disk_used_percent" := by
            intro e he
            exact linuxDiskLoop_names env dimsList e (by rw [hD]; exact he)
          have hPost : ∀ e ∈ evL ++ evD, eventMetricName e = "disk_used_percent" := by
            intro e he
            rcases List.mem_append.mp he with h | h
            · exact hLn e h
            · exact hDn e h
          rcases errTail with _ | eD <;>
            exact ⟨evC ++ evM, evL ++ evD, Or.inl (by simp [hD]), hPren, fun e he _ => hPost e he⟩
      · rcases hW : getWindowsDisksAll env iid with ⟨evW, rW⟩
        have hWn : ∀ e ∈ evW, eventMetricName e = "LogicalDisk % Free Space" := by
          intro e he
          exact getWindowsDisksAll_names env iid e (by rw [hW]; exact he)
        rcases rW with eW | disks <;>
          exact ⟨evC ++ evM, evW, Or.inl (by simp), hPren, fun e he _ => hWn e he⟩

end Status
